import Mathlib

/-!
Shallow embedding of the scim-mediator synchronization engine
(batch processor, transport retry loop, reconciler, cleanup) and
proofs of the specification claims about it.

Sources embedded:
* `pkg/models` (UserRecord, GroupRecord, JobTask, SCIMPatchOp, SCIMUser, ...)
* `cmd/processBatch.go` (processBatchCmd loop, handleUpdateTask,
  handleDeactivateTask, handleGroupMembershipTask, archival)
* `pkg/smartsuite` client (doRequestWithRetry)
* `cmd` refresh (reconcileUsers, reconcileGroups, refreshCmd control flow)
* `cmd` cleanup-users (cleanupUsersCmd)

Times are modelled as integers (the unit is irrelevant to every claim);
Go maps are modelled as association lists with unique keys, iterated in
list order (Go map iteration order is unspecified; every claim proved
here is insensitive to that order or is stated about a fixed input).
File and network I/O are modelled by explicit state: the set of API
calls issued, the in-memory mirrors, and the audit records appended.
-/

namespace ScimMediator

/-- `pkg/models`: structured SCIM name (compared with reflect.DeepEqual in Go). -/
structure SCIMName where
  formatted : String
  familyName : String
  givenName : String
deriving DecidableEq, Repr

/-- `pkg/models`: a user record in the local mirror (users.json).
`deactivationTimestamp` is Go's `*time.Time` (nil = `none`). -/
structure UserRecord where
  scimID : String
  email : String
  status : String
  name : SCIMName
  title : String
  organization : String
  deactivationTimestamp : Option Int
deriving DecidableEq, Repr

/-- `pkg/models`: a group record in the local mirror (groups.json). -/
structure GroupRecord where
  scimID : String
deriving DecidableEq, Repr

/-- `pkg/models`: SCIM email sub-object. -/
structure SCIMEmail where
  value : String
  emailType : String
  primary : Bool
deriving DecidableEq, Repr

/-- `pkg/models`: enterprise user extension payload. -/
structure EnterpriseUserExt where
  organization : String
deriving DecidableEq, Repr

/-- `pkg/models`: a user object as returned by the SCIM API. -/
structure SCIMUser where
  id : String
  userName : String
  name : SCIMName
  emails : List SCIMEmail
  active : Bool
  title : String
  enterpriseData : EnterpriseUserExt
deriving DecidableEq, Repr

/-- `pkg/models`: a group object as returned by the SCIM API. -/
structure SCIMGroup where
  id : String
  displayName : String
deriving DecidableEq, Repr

/-- A JSON value carried in a task's dynamically typed payload
(`JobTask.Data` is `interface{}` in Go; only string values are ever
inspected by the handlers, everything else is opaque). -/
inductive JsonVal where
  | str : String → JsonVal
  | boolVal : Bool → JsonVal
  | other : JsonVal
deriving DecidableEq, Repr

/-- The value carried by a SCIM patch operation (`Value interface{}`,
serialized with `omitempty`: `none` means the field is absent). -/
inductive PatchValue where
  | json : JsonVal → PatchValue
  | boolVal : Bool → PatchValue
  | memberRefs : List (List (String × String)) → PatchValue
deriving DecidableEq, Repr

/-- `pkg/models`: a single SCIM PATCH operation. -/
structure SCIMPatchOp where
  op : String
  path : String
  value : Option PatchValue
deriving DecidableEq, Repr

/-- The JSON field names present when a `SCIMPatchOp` is serialized:
`Op` has no omitempty, `Path` and `Value` are tagged `omitempty`
(an empty path / nil value produces no field). -/
def SCIMPatchOp.serializedFields (o : SCIMPatchOp) : List String :=
  ["op"]
    ++ (if o.path = "" then [] else ["path"])
    ++ (match o.value with | none => [] | some _ => ["value"])

/-- `JobTask.Data` after JSON unmarshalling: a map, a string, or some
other JSON value (the handlers type-assert on map / string). -/
inductive TaskData where
  | map : List (String × JsonVal) → TaskData
  | str : String → TaskData
  | null : TaskData
deriving DecidableEq, Repr

/-- `pkg/models`: one task of the batch queue. -/
structure JobTask where
  taskType : String
  target : String
  data : TaskData
  status : String
deriving DecidableEq, Repr

/-- A network request issued through the SmartSuite client. -/
inductive ApiCall where
  | patchUser : String → List SCIMPatchOp → ApiCall
  | patchGroup : String → List SCIMPatchOp → ApiCall
  | deleteUser : String → ApiCall
deriving DecidableEq, Repr

/-- The error values a task handler can return.  The first six are
local precondition failures produced before any network call; `apiError`
wraps a failure reported by the transport for a call that was issued. -/
inductive TaskErr where
  | userNotFound : String → TaskErr
  | updateDataNotMap : TaskErr
  | noUpdateOperations : String → TaskErr
  | groupDataNotString : TaskErr
  | groupNotFound : String → TaskErr
  | unknownTaskType : String → TaskErr
  | invalidOpType : String → TaskErr
  | apiError : ApiCall → TaskErr
deriving DecidableEq, Repr

/-- One record appended to audit.log by `logAndAudit`
(timestamp and free-text details omitted: no claim depends on them). -/
structure AuditRec where
  useCase : String
  target : String
  level : String
deriving DecidableEq, Repr

/-- Association-list lookup, modelling Go map indexing `m[k]`. -/
def mapLookup (m : List (String × α)) (k : String) : Option α :=
  match m with
  | [] => none
  | (k2, v) :: rest => if k2 = k then some v else mapLookup rest k

/-- Association-list insert-or-update, modelling Go map assignment `m[k] = v`. -/
def mapSet (m : List (String × α)) (k : String) (v : α) : List (String × α) :=
  match m with
  | [] => [(k, v)]
  | (k2, v2) :: rest => if k2 = k then (k, v) :: rest else (k2, v2) :: mapSet rest k v

/-- Association-list removal, modelling Go `delete(m, k)`. -/
def mapErase (m : List (String × α)) (k : String) : List (String × α) :=
  m.filter (fun p => p.1 ≠ k)

theorem mapLookup_mapSet_self (m : List (String × α)) (k : String) (v : α) :
    mapLookup (mapSet m k v) k = some v := by
  induction m with
  | nil => simp [mapSet, mapLookup]
  | cons p rest ih =>
    by_cases h : p.1 = k <;> simp [mapSet, mapLookup, h, ih]

theorem mapLookup_mapErase (m : List (String × α)) (k k' : String) :
    mapLookup (mapErase m k) k' = if k' = k then none else mapLookup m k' := by
  induction m with
  | nil => simp [mapErase, mapLookup]
  | cons p rest ih =>
    by_cases hk : p.1 = k
    · by_cases hk' : k' = k
      · simp_all [mapErase, mapLookup, List.filter]
      · have hne : ¬ k = k' := fun h => hk' h.symm
        simp_all [mapErase, mapLookup, List.filter]
    · by_cases hk' : k' = k <;>
        simp_all [mapErase, mapLookup, List.filter]

/-! ## Batch processor (`cmd/processBatch.go`) -/

/-- The mutable state threaded through one batch-processor run: the two
in-memory mirrors, the network calls issued so far (in order), and the
audit records appended so far. -/
structure BatchState where
  userStore : List (String × UserRecord)
  groupStore : List (String × GroupRecord)
  calls : List ApiCall
  audits : List AuditRec
deriving DecidableEq, Repr

/-- The `replace` operations handleUpdateTask builds: one per key of the
payload map. -/
def updateOps (dataMap : List (String × JsonVal)) : List SCIMPatchOp :=
  dataMap.map (fun kv => { op := "replace", path := kv.1, value := some (PatchValue.json kv.2) })

/-- The post-call field-update loop of handleUpdateTask: only a string
"title" value changes the record; other keys are ignored. -/
def applyUpdateFields (record : UserRecord) (dataMap : List (String × JsonVal)) : UserRecord :=
  dataMap.foldl
    (fun r kv =>
      if kv.1 = "title" then
        match kv.2 with
        | JsonVal.str s => { r with title := s }
        | _ => r
      else r)
    record

/-- The new userName handleUpdateTask extracts from the payload
("" when the key is absent or its value is not a string). -/
def extractNewUserName (dataMap : List (String × JsonVal)) : String :=
  dataMap.foldl
    (fun acc kv =>
      if kv.1 = "userName" then
        match kv.2 with
        | JsonVal.str s => s
        | _ => acc
      else acc)
    ""

/-- handleUpdateTask: precondition checks, one PATCH /Users call, then
mirror update (renaming the key when a new userName was set). -/
def handleUpdateTask (client : ApiCall → Bool) (st : BatchState) (task : JobTask) :
    BatchState × Option TaskErr :=
  match mapLookup st.userStore task.target with
  | none => (st, some (TaskErr.userNotFound task.target))
  | some record =>
    match task.data with
    | TaskData.map dataMap =>
      let operations := updateOps dataMap
      if operations = [] then
        (st, some (TaskErr.noUpdateOperations task.target))
      else
        let call := ApiCall.patchUser record.scimID operations
        let st1 := { st with calls := st.calls ++ [call] }
        if client call then
          let record2 := applyUpdateFields record dataMap
          let newUserName := extractNewUserName dataMap
          let store2 :=
            if newUserName ≠ "" ∧ newUserName ≠ task.target then
              mapSet (mapErase st.userStore task.target) newUserName record2
            else
              mapSet st.userStore task.target record2
          ({ st1 with userStore := store2 }, none)
        else
          (st1, some (TaskErr.apiError call))
    | _ => (st, some TaskErr.updateDataNotMap)

/-- handleDeactivateTask: one `replace active=false` op; on success the
mirror record gets status "inactive" and the deactivation timestamp is
stamped with the current time. -/
def handleDeactivateTask (client : ApiCall → Bool) (now : Int) (st : BatchState)
    (task : JobTask) : BatchState × Option TaskErr :=
  match mapLookup st.userStore task.target with
  | none => (st, some (TaskErr.userNotFound task.target))
  | some record =>
    let operations : List SCIMPatchOp :=
      [{ op := "replace", path := "active", value := some (PatchValue.boolVal false) }]
    let call := ApiCall.patchUser record.scimID operations
    let st1 := { st with calls := st.calls ++ [call] }
    if client call then
      let record2 := { record with deactivationTimestamp := some now, status := "inactive" }
      ({ st1 with userStore := mapSet st.userStore task.target record2 }, none)
    else
      (st1, some (TaskErr.apiError call))

/-- The patch operation built for an add-to-group task. -/
def addMemberOp (scimID : String) : SCIMPatchOp :=
  { op := "add", path := "members", value := some (PatchValue.memberRefs [[("value", scimID)]]) }

/-- The patch operation built for a remove-from-group task: the path embeds
the member external id in a SCIM filter expression; no value is set. -/
def removeMemberOp (scimID : String) : SCIMPatchOp :=
  { op := "remove", path := "members[value eq \"" ++ scimID ++ "\"]", value := none }

/-- handleGroupMembershipTask: precondition checks, then one
PATCH /Groups call against the group's external id; the mirror is not
mutated (membership is not cached locally). -/
def handleGroupMembershipTask (client : ApiCall → Bool) (st : BatchState)
    (task : JobTask) (opType : String) : BatchState × Option TaskErr :=
  match mapLookup st.userStore task.target with
  | none => (st, some (TaskErr.userNotFound task.target))
  | some user =>
    match task.data with
    | TaskData.str groupName =>
      match mapLookup st.groupStore groupName with
      | none => (st, some (TaskErr.groupNotFound groupName))
      | some group =>
        if opType = "add" ∨ opType = "remove" then
          let op := if opType = "add" then addMemberOp user.scimID else removeMemberOp user.scimID
          let call := ApiCall.patchGroup group.scimID [op]
          let st1 := { st with calls := st.calls ++ [call] }
          if client call then (st1, none) else (st1, some (TaskErr.apiError call))
        else
          (st, some (TaskErr.invalidOpType opType))
    | _ => (st, some TaskErr.groupDataNotString)

/-- The per-task dispatch of processBatchCmd (the switch on task.Type). -/
def dispatchTask (client : ApiCall → Bool) (now : Int) (st : BatchState)
    (task : JobTask) : BatchState × Option TaskErr :=
  if task.taskType = "update" then handleUpdateTask client st task
  else if task.taskType = "deactivate" then handleDeactivateTask client now st task
  else if task.taskType = "add-to-group" then handleGroupMembershipTask client st task "add"
  else if task.taskType = "remove-from-group" then handleGroupMembershipTask client st task "remove"
  else (st, some (TaskErr.unknownTaskType task.taskType))

/-- The audit record processBatchCmd appends after a task is processed:
level "error" when the task failed, "info" when it completed. -/
def taskAudit (task : JobTask) (err : Option TaskErr) : AuditRec :=
  { useCase := "ProcessBatch", target := task.target,
    level := match err with | some _ => "error" | none => "info" }

/-- The main loop of processBatchCmd over the job queue.  A task whose
status is not "pending" is skipped with no state change; a pending task is
dispatched, marked "completed"/"failed", audited, and the loop continues.
(The graceful-shutdown poll and the save-every-5-tasks progress writes are
not modelled: neither changes statuses, calls, mirrors or audits.) -/
def processQueue (client : ApiCall → Bool) (now : Int) (st : BatchState) :
    List JobTask → List JobTask × BatchState
  | [] => ([], st)
  | task :: rest =>
    if task.status ≠ "pending" then
      let r := processQueue client now st rest
      (task :: r.1, r.2)
    else
      let d := dispatchTask client now st task
      let task2 := { task with status := match d.2 with | some _ => "failed" | none => "completed" }
      let st2 := { d.1 with audits := d.1.audits ++ [taskAudit task d.2] }
      let r := processQueue client now st2 rest
      (task2 :: r.1, r.2)

/-- A wall-clock instant as consumed by Go's
`Format("20060102-150405")` layout. -/
structure DateTime where
  year : Nat
  month : Nat
  day : Nat
  hour : Nat
  minute : Nat
  second : Nat
deriving DecidableEq, Repr

/-- Zero-padding to two digits, as Go's stdlib time layout "01"/"02"/"15"/"04"/"05". -/
def pad2 (n : Nat) : String := if n < 10 then "0" ++ toString n else toString n

/-- Zero-padding to four digits, as Go's stdlib time layout "2006". -/
def pad4 (n : Nat) : String :=
  if n < 10 then "000" ++ toString n
  else if n < 100 then "00" ++ toString n
  else if n < 1000 then "0" ++ toString n
  else toString n

/-- `time.Now().Format("20060102-150405")`: YYYYMMDD-HHMMSS, second precision. -/
def formatTimestamp (t : DateTime) : String :=
  pad4 t.year ++ pad2 t.month ++ pad2 t.day ++ "-" ++ pad2 t.hour ++ pad2 t.minute ++ pad2 t.second

/-- Archival filename: `fmt.Sprintf("%s.completed_%s", jobQueueFile, timestamp)`. -/
def archiveFileName (jobQueueFile : String) (t : DateTime) : String :=
  jobQueueFile ++ ".completed_" ++ formatTimestamp t

/-- The allCompleted scan of processBatchCmd over the final queue. -/
def allCompleted (queue : List JobTask) : Bool :=
  queue.all (fun task => task.status == "completed")

/-- The name under which the checkpoint file ends up after the archival
step of processBatchCmd: renamed exactly when every task is "completed"
and the queue is nonempty (`allCompleted && len(jobQueue) > 0`). -/
def finalQueueFile (jobQueueFile : String) (t : DateTime) (queue : List JobTask) : String :=
  if allCompleted queue ∧ 0 < queue.length then archiveFileName jobQueueFile t
  else jobQueueFile

/-! ## Transport retry loop (`pkg/smartsuite.doRequestWithRetry`) -/

/-- The observable outcome of one HTTP attempt: a transport-level error
(connection refused, timeout, DNS, TLS) or a response with status and body. -/
inductive Outcome where
  | transportErr : Outcome
  | resp : Nat → String → Outcome
deriving DecidableEq, Repr

/-- The `lastErr` value recorded after a retryable attempt. -/
inductive Cause where
  | transport : Cause
  | status : Nat → Cause
deriving DecidableEq, Repr

/-- The errors doRequestWithRetry can return: retries exhausted (carrying
the attempt bound and the last cause) or a terminal non-retryable HTTP
status (carrying status code and response body). -/
inductive RetryErr where
  | exhausted : Nat → Option Cause → RetryErr
  | terminal : Nat → String → RetryErr
deriving DecidableEq, Repr

/-- Success (a response body) or failure of a whole request. -/
inductive ReqResult where
  | ok : String → ReqResult
  | err : RetryErr → ReqResult
deriving DecidableEq, Repr

/-- The trace of one doRequestWithRetry execution: final result, the
deterministic sleep components recorded before each retry (ms), and how
many HTTP attempts were made. -/
structure RetryTrace where
  result : ReqResult
  sleeps : List Nat
  attemptsMade : Nat
deriving DecidableEq, Repr

/-- `maxRetries := 4`. -/
def maxRetries : Nat := 4

/-- `baseBackoff := 1 * time.Second`, in milliseconds. -/
def baseBackoffMs : Nat := 1000

/-- The fixed 500ms sleep after a transport-level failure. -/
def transportRetrySleepMs : Nat := 500

/-- Deterministic backoff component before the retry following a
retryable HTTP status at 0-based attempt index `attempt`:
`float64(baseBackoff) * math.Pow(2, attempt)` (ms). The uniform 0..1s
jitter added on top is not part of the deterministic component. -/
def backoffMs (attempt : Nat) : Nat := baseBackoffMs * 2 ^ attempt

/-- One execution of the `for attempt := 0; attempt < maxRetries` loop of
doRequestWithRetry, with `fuel` iterations left (`fuel = maxRetries -
attempt`). `outcomes i` is what the i-th HTTP attempt observes; `sleeps`
accumulates the deterministic sleep components. Context cancellation is
not modelled (no claim exercises it). -/
def retryLoop (outcomes : Nat → Outcome) :
    Nat → Nat → Option Cause → List Nat → RetryTrace
  | 0, attempt, lastErr, sleeps =>
    { result := ReqResult.err (RetryErr.exhausted maxRetries lastErr),
      sleeps := sleeps, attemptsMade := attempt }
  | fuel + 1, attempt, lastErr, sleeps =>
    match outcomes attempt with
    | Outcome.transportErr =>
      retryLoop outcomes fuel (attempt + 1) (some Cause.transport)
        (sleeps ++ [transportRetrySleepMs])
    | Outcome.resp status body =>
      if status = 429 ∨ 500 ≤ status then
        retryLoop outcomes fuel (attempt + 1) (some (Cause.status status))
          (sleeps ++ [backoffMs attempt])
      else if status = 204 then
        { result := ReqResult.ok "", sleeps := sleeps, attemptsMade := attempt + 1 }
      else if status < 200 ∨ 300 ≤ status then
        { result := ReqResult.err (RetryErr.terminal status body),
          sleeps := sleeps, attemptsMade := attempt + 1 }
      else
        { result := ReqResult.ok body, sleeps := sleeps, attemptsMade := attempt + 1 }

/-- doRequestWithRetry: run the loop from attempt 0 with no last error. -/
def doRequestWithRetry (outcomes : Nat → Outcome) : RetryTrace :=
  retryLoop outcomes maxRetries 0 none []

/-- Outcomes classified retryable by doRequestWithRetry: any transport
error, and any response with status 429 or ≥ 500. -/
def retryable : Outcome → Bool
  | Outcome.transportErr => true
  | Outcome.resp status _ => status == 429 || decide (500 ≤ status)

/-- A retryable HTTP response (the exponential-backoff branch, as opposed
to the fixed 500ms transport-error branch). -/
def httpRetryable : Outcome → Bool
  | Outcome.transportErr => false
  | Outcome.resp status _ => status == 429 || decide (500 ≤ status)

/-- The `lastErr` cause recorded for a retryable outcome. -/
def causeOf : Outcome → Cause
  | Outcome.transportErr => Cause.transport
  | Outcome.resp status _ => Cause.status status

/-! ## Reconciler (refresh command: reconcileUsers / reconcileGroups) -/

/-- Drift events emitted (via the audit channel) by the reconciler. -/
inductive DriftEvent where
  | createdExternally : String → DriftEvent
  | deletedExternally : String → DriftEvent
  | statusChanged : String → String → String → DriftEvent
  | titleChanged : String → String → String → DriftEvent
  | nameChanged : String → DriftEvent
  | groupCreatedExternally : String → DriftEvent
  | groupDeletedExternally : String → DriftEvent
deriving DecidableEq, Repr

/-- The mirror record reconcileUsers derives from a fetched SCIM user.
The source reads `u.Emails[0].Value` (presupposing a nonempty email
list); `DeactivationTimestamp` is left at its zero value (nil). -/
def recordOfSCIMUser (u : SCIMUser) : UserRecord :=
  { scimID := u.id
    email := (u.emails.headD { value := "", emailType := "", primary := false }).value
    status := if u.active then "active" else "inactive"
    name := u.name
    title := u.title
    organization := u.enterpriseData.organization
    deactivationTimestamp := none }

/-- The newState map reconcileUsers builds from the fetched users
(users with an empty userName are skipped). -/
def newStateOfUsers (scimUsers : List SCIMUser) : List (String × UserRecord) :=
  scimUsers.foldl
    (fun m u => if u.userName = "" then m else mapSet m u.userName (recordOfSCIMUser u))
    []

/-- The drift events reconcileUsers emits: creations and per-field
changes scanning newState, then deletions scanning oldState. -/
def userDeltaEvents (oldState newState : List (String × UserRecord)) : List DriftEvent :=
  (newState.foldl
    (fun evs kv =>
      match mapLookup oldState kv.1 with
      | none => evs ++ [DriftEvent.createdExternally kv.1]
      | some oldUser =>
        evs
          ++ (if oldUser.status ≠ kv.2.status then
                [DriftEvent.statusChanged kv.1 oldUser.status kv.2.status] else [])
          ++ (if oldUser.title ≠ kv.2.title then
                [DriftEvent.titleChanged kv.1 oldUser.title kv.2.title] else [])
          ++ (if oldUser.name ≠ kv.2.name then [DriftEvent.nameChanged kv.1] else []))
    [])
  ++ oldState.foldl
      (fun evs kv =>
        match mapLookup newState kv.1 with
        | none => evs ++ [DriftEvent.deletedExternally kv.1]
        | some _ => evs)
      []

/-- reconcileUsers: fetch remote users (`fetch` models GetUsers, which
can fail), diff against the old mirror, then unconditionally save the
fresh snapshot as the new mirror. On fetch failure the function returns
the error before SaveUsers is reached (`none`): no events, no overwrite. -/
def reconcileUsersModel (oldState : List (String × UserRecord))
    (fetch : Except Unit (List SCIMUser)) :
    Option (List DriftEvent × List (String × UserRecord)) :=
  match fetch with
  | Except.error _ => none
  | Except.ok scimUsers =>
    let newState := newStateOfUsers scimUsers
    some (userDeltaEvents oldState newState, newState)

/-- The newState map reconcileGroups builds from the fetched groups. -/
def newStateOfGroups (scimGroups : List SCIMGroup) : List (String × GroupRecord) :=
  scimGroups.foldl
    (fun m g => if g.displayName = "" then m else mapSet m g.displayName { scimID := g.id })
    []

/-- The drift events reconcileGroups emits (creations then deletions;
groups have no compared fields). -/
def groupDeltaEvents (oldState newState : List (String × GroupRecord)) : List DriftEvent :=
  (newState.foldl
    (fun evs kv =>
      match mapLookup oldState kv.1 with
      | none => evs ++ [DriftEvent.groupCreatedExternally kv.1]
      | some _ => evs)
    [])
  ++ oldState.foldl
      (fun evs kv =>
        match mapLookup newState kv.1 with
        | none => evs ++ [DriftEvent.groupDeletedExternally kv.1]
        | some _ => evs)
      []

/-- reconcileGroups, exactly parallel to `reconcileUsersModel`. -/
def reconcileGroupsModel (oldState : List (String × GroupRecord))
    (fetch : Except Unit (List SCIMGroup)) :
    Option (List DriftEvent × List (String × GroupRecord)) :=
  match fetch with
  | Except.error _ => none
  | Except.ok scimGroups =>
    let newState := newStateOfGroups scimGroups
    some (groupDeltaEvents oldState newState, newState)

/-- The observable outcome of one run of the refresh command. -/
structure RefreshOutcome where
  usersMirror : List (String × UserRecord)
  groupsMirror : List (String × GroupRecord)
  userEvents : List DriftEvent
  groupEvents : List DriftEvent
  groupsReconcileRan : Bool
  exitedWithError : Bool
deriving DecidableEq, Repr

/-- refreshCmd control flow: reconcile users first; on any
reconcileUsers error the run ends at once (os.Exit(1), or a bare return
on cancellation) and reconcileGroups never runs. Only when users succeed
does reconcileGroups run; its failure likewise ends the run, but the
users mirror has already been overwritten by then. -/
def refreshModel (oldUsers : List (String × UserRecord))
    (oldGroups : List (String × GroupRecord))
    (usersFetch : Except Unit (List SCIMUser))
    (groupsFetch : Except Unit (List SCIMGroup)) : RefreshOutcome :=
  match reconcileUsersModel oldUsers usersFetch with
  | none =>
    { usersMirror := oldUsers, groupsMirror := oldGroups,
      userEvents := [], groupEvents := [],
      groupsReconcileRan := false, exitedWithError := true }
  | some (uev, um) =>
    match reconcileGroupsModel oldGroups groupsFetch with
    | none =>
      { usersMirror := um, groupsMirror := oldGroups,
        userEvents := uev, groupEvents := [],
        groupsReconcileRan := true, exitedWithError := true }
    | some (gev, gm) =>
      { usersMirror := um, groupsMirror := gm,
        userEvents := uev, groupEvents := gev,
        groupsReconcileRan := true, exitedWithError := false }

/-! ## Cleanup (cleanup-users command) -/

/-- The 7-day grace period (`-gracePeriod = 7 * 24 * time.Hour`), in seconds. -/
def gracePeriodSeconds : Int := 7 * 24 * 60 * 60

/-- `cutoffTime := time.Now().Add(gracePeriod)` with a negative grace period. -/
def cleanupCutoff (now : Int) : Int := now - gracePeriodSeconds

/-- The candidate test of cleanupUsersCmd:
`record.DeactivationTimestamp != nil && record.DeactivationTimestamp.Before(cutoffTime)`. -/
def pastGracePeriod (cutoff : Int) (r : UserRecord) : Bool :=
  match r.deactivationTimestamp with
  | some ts => decide (ts < cutoff)
  | none => false

/-- The observable outcome of one cleanup-users run. -/
structure CleanupResult where
  store : List (String × UserRecord)
  calls : List ApiCall
  failedDeletions : List String
deriving DecidableEq, Repr

/-- The body of the deletion loop of cleanupUsersCmd for one candidate
`kv`: issue `DELETE /Users/<scimID>`; on success remove the record from
the mirror map, on failure record the key in failedDeletions and leave
the record in place; either way continue with the next candidate. -/
def cleanupStep (deleteOk : String → Bool) (acc : CleanupResult)
    (kv : String × UserRecord) : CleanupResult :=
  let call := ApiCall.deleteUser kv.2.scimID
  if deleteOk kv.2.scimID then
    { acc with store := mapErase acc.store kv.1, calls := acc.calls ++ [call] }
  else
    { acc with calls := acc.calls ++ [call],
               failedDeletions := acc.failedDeletions ++ [kv.1] }

/-- cleanupUsersCmd core: collect the users past the grace period, then
run the deletion loop (`cleanupStep`) over them; finally SaveUsers
persists whatever remains. `deleteOk` models the success of each DELETE
call; cancellation polling is not modelled. -/
def cleanupUsersModel (deleteOk : String → Bool) (now : Int)
    (store : List (String × UserRecord)) : CleanupResult :=
  let cutoff := cleanupCutoff now
  let usersToDelete := store.filter (fun kv => pastGracePeriod cutoff kv.2)
  usersToDelete.foldl (cleanupStep deleteOk)
    { store := store, calls := [], failedDeletions := [] }

/-! ## Theorems about the transport -/

/-- The deterministic sleep component recorded after retryable outcome
`o` observed at attempt index `a`. -/
def sleepFor (o : Outcome) (a : Nat) : Nat :=
  match o with
  | Outcome.transportErr => transportRetrySleepMs
  | Outcome.resp _ _ => backoffMs a

theorem sleepFor_of_httpRetryable (o : Outcome) (a : Nat)
    (h : httpRetryable o = true) : sleepFor o a = backoffMs a := by
  cases o with
  | transportErr => simp [httpRetryable] at h
  | resp s b => rfl

theorem retryLoop_retryable_step (outcomes : Nat → Outcome) (fuel attempt : Nat)
    (lastErr : Option Cause) (sleeps : List Nat)
    (h : retryable (outcomes attempt) = true) :
    retryLoop outcomes (fuel + 1) attempt lastErr sleeps
      = retryLoop outcomes fuel (attempt + 1) (some (causeOf (outcomes attempt)))
          (sleeps ++ [sleepFor (outcomes attempt) attempt]) := by
  cases ho : outcomes attempt with
  | transportErr => simp [retryLoop, ho, causeOf, sleepFor]
  | resp s b =>
    have hs : s = 429 ∨ 500 ≤ s := by
      rw [ho] at h
      simpa [retryable] using h
    simp only [retryLoop, ho, causeOf, sleepFor]
    rw [if_pos hs]

/-- C3: if all four attempts fail retryably (e.g. four consecutive 503s),
the transport makes exactly 4 attempts and fails with an exhausted-retries
error referencing the last cause; each retryable HTTP status at 0-based
attempt i records deterministic sleep component base(1s)·2^i
(1s, 2s, 4s, 8s before jitter), which is non-decreasing in i. -/
theorem retry_exhaustion_and_backoff (outcomes : Nat → Outcome)
    (h : ∀ i, i < 4 → retryable (outcomes i) = true) :
    (doRequestWithRetry outcomes).attemptsMade = 4 ∧
    (doRequestWithRetry outcomes).result
      = ReqResult.err (RetryErr.exhausted 4 (some (causeOf (outcomes 3)))) ∧
    (doRequestWithRetry outcomes).sleeps.length = 4 ∧
    (∀ i, i < 4 → httpRetryable (outcomes i) = true →
      (doRequestWithRetry outcomes).sleeps[i]? = some (baseBackoffMs * 2 ^ i)) ∧
    (backoffMs 0 = 1000 ∧ backoffMs 1 = 2000 ∧ backoffMs 2 = 4000 ∧ backoffMs 3 = 8000) ∧
    (∀ i j, i ≤ j → backoffMs i ≤ backoffMs j) := by
  have key : doRequestWithRetry outcomes =
      { result := ReqResult.err (RetryErr.exhausted 4 (some (causeOf (outcomes 3)))),
        sleeps := [sleepFor (outcomes 0) 0, sleepFor (outcomes 1) 1,
                   sleepFor (outcomes 2) 2, sleepFor (outcomes 3) 3],
        attemptsMade := 4 } := by
    have e0 := retryLoop_retryable_step outcomes 3 0 none [] (h 0 (by omega))
    have e1 := retryLoop_retryable_step outcomes 2 1 (some (causeOf (outcomes 0)))
      [sleepFor (outcomes 0) 0] (h 1 (by omega))
    have e2 := retryLoop_retryable_step outcomes 1 2 (some (causeOf (outcomes 1)))
      [sleepFor (outcomes 0) 0, sleepFor (outcomes 1) 1] (h 2 (by omega))
    have e3 := retryLoop_retryable_step outcomes 0 3 (some (causeOf (outcomes 2)))
      [sleepFor (outcomes 0) 0, sleepFor (outcomes 1) 1, sleepFor (outcomes 2) 2]
      (h 3 (by omega))
    show retryLoop outcomes maxRetries 0 none [] = _
    norm_num [maxRetries] at e0 e1 e2 e3 ⊢
    rw [e0, e1, e2, e3]
    simp [retryLoop, maxRetries]
  refine ⟨by rw [key], by rw [key], by rw [key]; rfl, ?_, by decide, ?_⟩
  · intro i hi hhttp
    rw [key]
    interval_cases i <;>
      simp [sleepFor_of_httpRetryable _ _ hhttp, backoffMs]
  · intro i j hij
    unfold backoffMs
    exact Nat.mul_le_mul_left _ (Nat.pow_le_pow_right (by omega) hij)

/-- Witness for C3 at four consecutive 503 responses. -/
theorem retry_exhaustion_and_backoff_witness :
    (doRequestWithRetry (fun _ => Outcome.resp 503 "")).attemptsMade = 4 ∧
    (doRequestWithRetry (fun _ => Outcome.resp 503 "")).result
      = ReqResult.err (RetryErr.exhausted 4 (some (Cause.status 503))) ∧
    (doRequestWithRetry (fun _ => Outcome.resp 503 "")).sleeps[2]? = some 4000 := by
  have H := retry_exhaustion_and_backoff (fun _ => Outcome.resp 503 "") (fun i _ => rfl)
  refine ⟨H.1, H.2.1, ?_⟩
  have := H.2.2.2.1 2 (by omega) rfl
  simpa using this

/-- C4: whenever an attempt receives an HTTP response that is not
retryable (neither 429 nor ≥500), the loop stops at that attempt:
status 204 yields success with an empty body, any other status in
[200,300) yields the body verbatim, and any remaining status is a
terminal failure carrying the status code and the body, with no further
retry (the loop returns at attempt + 1 attempts made, no sleep added). -/
theorem transport_outcome_classification (outcomes : Nat → Outcome)
    (fuel attempt : Nat) (lastErr : Option Cause) (sleeps : List Nat)
    (s : Nat) (b : String)
    (hout : outcomes attempt = Outcome.resp s b)
    (hnr : ¬(s = 429 ∨ 500 ≤ s)) :
    (s = 204 →
      retryLoop outcomes (fuel + 1) attempt lastErr sleeps
        = { result := ReqResult.ok "", sleeps := sleeps, attemptsMade := attempt + 1 }) ∧
    (200 ≤ s → s < 300 → s ≠ 204 →
      retryLoop outcomes (fuel + 1) attempt lastErr sleeps
        = { result := ReqResult.ok b, sleeps := sleeps, attemptsMade := attempt + 1 }) ∧
    ((s < 200 ∨ 300 ≤ s) →
      retryLoop outcomes (fuel + 1) attempt lastErr sleeps
        = { result := ReqResult.err (RetryErr.terminal s b), sleeps := sleeps,
            attemptsMade := attempt + 1 }) := by
  refine ⟨?_, ?_, ?_⟩
  · intro h204
    simp [retryLoop, hout, hnr, h204]
  · intro h200 h300 h204
    have hterm : ¬(s < 200 ∨ 300 ≤ s) := by omega
    simp [retryLoop, hout, hnr, h204, hterm]
  · intro hterm
    have h204 : ¬ s = 204 := by omega
    simp [retryLoop, hout, hnr, h204, hterm]

/-- Witness for C4 at statuses 204, 200 and 404 on the first attempt. -/
theorem transport_outcome_classification_witness :
    retryLoop (fun _ => Outcome.resp 204 "ignored") 4 0 none []
      = { result := ReqResult.ok "", sleeps := [], attemptsMade := 1 } ∧
    retryLoop (fun _ => Outcome.resp 200 "body") 4 0 none []
      = { result := ReqResult.ok "body", sleeps := [], attemptsMade := 1 } ∧
    retryLoop (fun _ => Outcome.resp 404 "not found") 4 0 none []
      = { result := ReqResult.err (RetryErr.terminal 404 "not found"),
          sleeps := [], attemptsMade := 1 } := by
  refine ⟨?_, ?_, ?_⟩
  · exact (transport_outcome_classification (fun _ => Outcome.resp 204 "ignored")
      3 0 none [] 204 "ignored" rfl (by omega)).1 rfl
  · exact (transport_outcome_classification (fun _ => Outcome.resp 200 "body")
      3 0 none [] 200 "body" rfl (by omega)).2.1 (by omega) (by omega) (by omega)
  · exact (transport_outcome_classification (fun _ => Outcome.resp 404 "not found")
      3 0 none [] 404 "not found" rfl (by omega)).2.2 (by omega)

/-! ## Theorems about the batch processor -/

theorem processQueue_all_completed (client : ApiCall → Bool) (now : Int) (st : BatchState) :
    ∀ queue : List JobTask, (∀ task ∈ queue, task.status = "completed") →
      processQueue client now st queue = (queue, st) := by
  intro queue
  induction queue with
  | nil => intro _; rfl
  | cons t rest ih =>
    intro h
    have ht : t.status = "completed" := h t (by simp)
    have hne : t.status ≠ "pending" := by simp [ht]
    simp [processQueue, hne, ih (fun x hx => h x (List.mem_cons_of_mem _ hx))]

/-- C1: a second processor run over a checkpoint whose every task is
already "completed" performs zero API calls and leaves the queue, the
mirrors and the audit log identical; and in general any task whose
status is not "pending" is skipped with no state change. -/
theorem idempotent_resume (client : ApiCall → Bool) (now : Int) (st : BatchState)
    (queue : List JobTask)
    (h : ∀ task ∈ queue, task.status = "completed") :
    processQueue client now st queue = (queue, st) ∧
    (∀ task rest, task.status ≠ "pending" →
      processQueue client now st (task :: rest)
        = (task :: (processQueue client now st rest).1,
           (processQueue client now st rest).2)) := by
  refine ⟨processQueue_all_completed client now st queue h, ?_⟩
  intro task rest hst
  simp [processQueue, hst]

/-- Witness for C1: a two-task completed checkpoint replayed over a
nonempty mirror, with a client that would fail every call. -/
theorem idempotent_resume_witness :
    processQueue (fun _ => false) 0
        { userStore := [("alice", { scimID := "s-1", email := "a@x", status := "active",
                                    name := ⟨"", "", ""⟩, title := "", organization := "",
                                    deactivationTimestamp := none })],
          groupStore := [], calls := [], audits := [] }
        [{ taskType := "update", target := "alice",
           data := TaskData.map [("title", JsonVal.str "Eng")], status := "completed" },
         { taskType := "deactivate", target := "alice",
           data := TaskData.null, status := "completed" }]
      = ([{ taskType := "update", target := "alice",
            data := TaskData.map [("title", JsonVal.str "Eng")], status := "completed" },
          { taskType := "deactivate", target := "alice",
            data := TaskData.null, status := "completed" }],
         { userStore := [("alice", { scimID := "s-1", email := "a@x", status := "active",
                                     name := ⟨"", "", ""⟩, title := "", organization := "",
                                     deactivationTimestamp := none })],
           groupStore := [], calls := [], audits := [] }) :=
  (idempotent_resume (fun _ => false) 0 _ _ (by decide)).1

/-- C7 counterexample: for the empty queue every task is (vacuously)
"completed", yet the checkpoint file is not renamed: the code archives
only when `len(jobQueue) > 0` also holds. -/
theorem archival_gating_cex :
    allCompleted ([] : List JobTask) = true ∧
    finalQueueFile "data/job_queue.json" ⟨2026, 1, 2, 3, 4, 5⟩ ([] : List JobTask)
      = "data/job_queue.json" ∧
    "data/job_queue.json" ≠ archiveFileName "data/job_queue.json" ⟨2026, 1, 2, 3, 4, 5⟩ := by
  refine ⟨rfl, rfl, by decide⟩

/-- C7 (amended): for a nonempty final queue, if every task ended
"completed" the checkpoint file is renamed to
`<file>.completed_<YYYYMMDD-HHMMSS>`; if any task ended otherwise the
file keeps its original name (the latter holds for every queue). -/
theorem archival_gating (f : String) (t : DateTime) (queue : List JobTask)
    (hne : queue ≠ []) :
    (allCompleted queue = true →
      finalQueueFile f t queue = f ++ ".completed_" ++ formatTimestamp t) ∧
    (allCompleted queue = false → finalQueueFile f t queue = f) := by
  constructor
  · intro hall
    have hlen : 0 < queue.length := List.length_pos.mpr hne
    simp [finalQueueFile, hall, hlen, archiveFileName]
  · intro hnot
    simp [finalQueueFile, hnot]

/-- Witness for C7: a fully completed singleton queue is archived under
the second-precision timestamped name; a queue with a failed task keeps
its name. -/
theorem archival_gating_witness :
    finalQueueFile "job_queue.json" ⟨2026, 1, 2, 3, 4, 5⟩
        [{ taskType := "update", target := "u", data := TaskData.null, status := "completed" }]
      = "job_queue.json.completed_20260102-030405" ∧
    finalQueueFile "job_queue.json" ⟨2026, 1, 2, 3, 4, 5⟩
        [{ taskType := "update", target := "u", data := TaskData.null, status := "failed" }]
      = "job_queue.json" := by
  constructor
  · exact ((archival_gating "job_queue.json" ⟨2026, 1, 2, 3, 4, 5⟩
      [{ taskType := "update", target := "u", data := TaskData.null, status := "completed" }]
      (by simp)).1 (by decide)).trans (by decide)
  · exact (archival_gating "job_queue.json" ⟨2026, 1, 2, 3, 4, 5⟩
      [{ taskType := "update", target := "u", data := TaskData.null, status := "failed" }]
      (by simp)).2 (by decide)

theorem value_field_not_serialized (o : SCIMPatchOp) (h : o.value = none) :
    "value" ∉ o.serializedFields := by
  unfold SCIMPatchOp.serializedFields
  rw [h]
  by_cases hp : o.path = "" <;> simp [hp]

/-- C8: a remove-from-group task for a user with mirror external id `s`
produces exactly one patch operation, with op "remove", path exactly
`members[value eq "s"]` embedding that id, and no value field in the
serialized operation. -/
theorem membership_filter_construction (client : ApiCall → Bool) (st : BatchState)
    (task : JobTask) (user : UserRecord) (groupName : String) (group : GroupRecord)
    (hu : mapLookup st.userStore task.target = some user)
    (hd : task.data = TaskData.str groupName)
    (hg : mapLookup st.groupStore groupName = some group) :
    (handleGroupMembershipTask client st task "remove").1.calls
      = st.calls ++ [ApiCall.patchGroup group.scimID [removeMemberOp user.scimID]] ∧
    (removeMemberOp user.scimID).op = "remove" ∧
    (removeMemberOp user.scimID).path = "members[value eq \"" ++ user.scimID ++ "\"]" ∧
    (removeMemberOp user.scimID).value = none ∧
    "value" ∉ (removeMemberOp user.scimID).serializedFields := by
  refine ⟨?_, rfl, rfl, rfl, value_field_not_serialized _ rfl⟩
  unfold handleGroupMembershipTask
  rw [hu, hd]
  simp only [hg]
  by_cases hc : client (ApiCall.patchGroup group.scimID [removeMemberOp user.scimID]) <;>
    simp [hc]

/-- Witness for C8 at mirror external id "abc-123". -/
theorem membership_filter_construction_witness :
    (handleGroupMembershipTask (fun _ => true)
        { userStore := [("u1", { scimID := "abc-123", email := "u@x", status := "active",
                                 name := ⟨"", "", ""⟩, title := "", organization := "",
                                 deactivationTimestamp := none })],
          groupStore := [("eng", { scimID := "g-9" })], calls := [], audits := [] }
        { taskType := "remove-from-group", target := "u1",
          data := TaskData.str "eng", status := "pending" } "remove").1.calls
      = [ApiCall.patchGroup "g-9"
          [{ op := "remove", path := "members[value eq \"abc-123\"]", value := none }]] ∧
    "value" ∉ SCIMPatchOp.serializedFields
        { op := "remove", path := "members[value eq \"abc-123\"]", value := none } := by
  have H := membership_filter_construction (fun _ => true)
    { userStore := [("u1", { scimID := "abc-123", email := "u@x", status := "active",
                             name := ⟨"", "", ""⟩, title := "", organization := "",
                             deactivationTimestamp := none })],
      groupStore := [("eng", { scimID := "g-9" })], calls := [], audits := [] }
    { taskType := "remove-from-group", target := "u1",
      data := TaskData.str "eng", status := "pending" }
    { scimID := "abc-123", email := "u@x", status := "active",
      name := ⟨"", "", ""⟩, title := "", organization := "",
      deactivationTimestamp := none }
    "eng" { scimID := "g-9" } rfl rfl rfl
  exact ⟨H.1.trans (by decide), H.2.2.2.2⟩

/-- Scenario mirror record for C2 (alice). -/
def aliceRec : UserRecord :=
  { scimID := "scim-alice", email := "alice@example.edu", status := "active",
    name := ⟨"Alice L", "L", "Alice"⟩, title := "", organization := "",
    deactivationTimestamp := none }

/-- Scenario mirror record for C2 (carol). -/
def carolRec : UserRecord :=
  { scimID := "scim-carol", email := "carol@example.edu", status := "active",
    name := ⟨"Carol K", "K", "Carol"⟩, title := "", organization := "",
    deactivationTimestamp := none }

/-- Scenario state for C2: alice and carol exist in the mirror, bob does
not; one group "eng" exists. -/
def scenarioState : BatchState :=
  { userStore := [("alice", aliceRec), ("carol", carolRec)],
    groupStore := [("eng", { scimID := "scim-eng" })],
    calls := [], audits := [] }

/-- Scenario queue for C2: three pending tasks; task 2 targets "bob",
absent from the mirror. -/
def scenarioTasks : List JobTask :=
  [{ taskType := "deactivate", target := "alice", data := TaskData.null, status := "pending" },
   { taskType := "update", target := "bob",
     data := TaskData.map [("title", JsonVal.str "Engineer")], status := "pending" },
   { taskType := "add-to-group", target := "carol", data := TaskData.str "eng",
     status := "pending" }]

/-- A client whose every call succeeds. -/
def clientAllOk : ApiCall → Bool := fun _ => true

/-- C2: on the 3-task scenario queue whose task 2 targets a user absent
from the mirror, one run ends with statuses completed/failed/completed,
exactly two API calls (none for task 2) and one audit record per task
(level "error" for task 2); in general a failed dispatch marks the task
"failed", appends an audit record and continues with the next task, and
every precondition failure (missing user/group, malformed payload,
unknown kind) returns with the state — hence the call list — unchanged,
i.e. without any network call. -/
theorem partial_failure_isolation :
    ((processQueue clientAllOk 42 scenarioState scenarioTasks).1.map (fun t => t.status)
        = ["completed", "failed", "completed"]) ∧
    ((processQueue clientAllOk 42 scenarioState scenarioTasks).2.calls
        = [ApiCall.patchUser "scim-alice"
             [{ op := "replace", path := "active", value := some (PatchValue.boolVal false) }],
           ApiCall.patchGroup "scim-eng" [addMemberOp "scim-carol"]]) ∧
    ((processQueue clientAllOk 42 scenarioState scenarioTasks).2.audits
        = [⟨"ProcessBatch", "alice", "info"⟩, ⟨"ProcessBatch", "bob", "error"⟩,
           ⟨"ProcessBatch", "carol", "info"⟩]) ∧
    (∀ client now st st2 task e rest, task.status = "pending" →
      dispatchTask client now st task = (st2, some e) →
      processQueue client now st (task :: rest)
        = ({ task with status := "failed" }
             :: (processQueue client now
                  { st2 with audits := st2.audits ++ [taskAudit task (some e)] } rest).1,
           (processQueue client now
                  { st2 with audits := st2.audits ++ [taskAudit task (some e)] } rest).2)) ∧
    (∀ task e, (taskAudit task (some e)).level = "error") ∧
    (∀ client now st task, task.taskType = "update" →
      mapLookup st.userStore task.target = none →
      dispatchTask client now st task = (st, some (TaskErr.userNotFound task.target))) ∧
    (∀ client now st task r, task.taskType = "update" →
      mapLookup st.userStore task.target = some r →
      (task.data = TaskData.null ∨ ∃ s, task.data = TaskData.str s) →
      dispatchTask client now st task = (st, some TaskErr.updateDataNotMap)) ∧
    (∀ client now st task r, task.taskType = "update" →
      mapLookup st.userStore task.target = some r →
      task.data = TaskData.map [] →
      dispatchTask client now st task = (st, some (TaskErr.noUpdateOperations task.target))) ∧
    (∀ client now st task, task.taskType = "deactivate" →
      mapLookup st.userStore task.target = none →
      dispatchTask client now st task = (st, some (TaskErr.userNotFound task.target))) ∧
    (∀ client now st task,
      (task.taskType = "add-to-group" ∨ task.taskType = "remove-from-group") →
      mapLookup st.userStore task.target = none →
      dispatchTask client now st task = (st, some (TaskErr.userNotFound task.target))) ∧
    (∀ client now st task r,
      (task.taskType = "add-to-group" ∨ task.taskType = "remove-from-group") →
      mapLookup st.userStore task.target = some r →
      (task.data = TaskData.null ∨ ∃ m, task.data = TaskData.map m) →
      dispatchTask client now st task = (st, some TaskErr.groupDataNotString)) ∧
    (∀ client now st task r g,
      (task.taskType = "add-to-group" ∨ task.taskType = "remove-from-group") →
      mapLookup st.userStore task.target = some r →
      task.data = TaskData.str g →
      mapLookup st.groupStore g = none →
      dispatchTask client now st task = (st, some (TaskErr.groupNotFound g))) ∧
    (∀ client now st task, task.taskType ≠ "update" → task.taskType ≠ "deactivate" →
      task.taskType ≠ "add-to-group" → task.taskType ≠ "remove-from-group" →
      dispatchTask client now st task = (st, some (TaskErr.unknownTaskType task.taskType))) := by
  refine ⟨by decide, by decide, by decide, ?_, fun task e => rfl, ?_, ?_, ?_, ?_, ?_, ?_, ?_, ?_⟩
  · intro client now st st2 task e rest hst hd
    simp [processQueue, hst, hd]
  · intro client now st task ht hu
    simp [dispatchTask, ht, handleUpdateTask, hu]
  · intro client now st task r ht hu hd
    rcases hd with hd | ⟨s, hd⟩ <;> simp [dispatchTask, ht, handleUpdateTask, hu, hd]
  · intro client now st task r ht hu hd
    simp [dispatchTask, ht, handleUpdateTask, hu, hd, updateOps]
  · intro client now st task ht hu
    simp [dispatchTask, ht, handleDeactivateTask, hu]
  · intro client now st task ht hu
    rcases ht with ht | ht <;> simp [dispatchTask, ht, handleGroupMembershipTask, hu]
  · intro client now st task r ht hu hd
    rcases ht with ht | ht <;> rcases hd with hd | ⟨m, hd⟩ <;>
      simp [dispatchTask, ht, handleGroupMembershipTask, hu, hd]
  · intro client now st task r g ht hu hd hg
    rcases ht with ht | ht <;>
      simp [dispatchTask, ht, handleGroupMembershipTask, hu, hd, hg]
  · intro client now st task h1 h2 h3 h4
    simp [dispatchTask, h1, h2, h3, h4]

/-- Witness for C2: the concrete 3-task scenario plus two precondition
failures (missing user; unknown task kind) leaving the state untouched. -/
theorem partial_failure_isolation_witness :
    ((processQueue clientAllOk 42 scenarioState scenarioTasks).1.map (fun t => t.status)
        = ["completed", "failed", "completed"]) ∧
    dispatchTask clientAllOk 0
        { userStore := [], groupStore := [], calls := [], audits := [] }
        { taskType := "update", target := "ghost", data := TaskData.null, status := "pending" }
      = ({ userStore := [], groupStore := [], calls := [], audits := [] },
         some (TaskErr.userNotFound "ghost")) ∧
    dispatchTask clientAllOk 0
        { userStore := [], groupStore := [], calls := [], audits := [] }
        { taskType := "frobnicate", target := "x", data := TaskData.null, status := "pending" }
      = ({ userStore := [], groupStore := [], calls := [], audits := [] },
         some (TaskErr.unknownTaskType "frobnicate")) := by
  obtain ⟨h1, _, _, _, _, h6, _, _, _, _, _, _, h13⟩ := partial_failure_isolation
  exact ⟨h1, h6 clientAllOk 0 _ _ rfl rfl,
         h13 clientAllOk 0 _ _ (by decide) (by decide) (by decide) (by decide)⟩

/-! ## Theorems about the reconciler -/

/-- Remote user B for C5/C9 (active). -/
def scimBob : SCIMUser :=
  { id := "scim-bob", userName := "bob", name := ⟨"Bob B", "B", "Bob"⟩,
    emails := [⟨"bob@example.edu", "work", true⟩], active := true,
    title := "Dev", enterpriseData := ⟨"Eng"⟩ }

/-- Remote user C for C5. -/
def scimCarol : SCIMUser :=
  { id := "scim-carol", userName := "carol", name := ⟨"Carol K", "K", "Carol"⟩,
    emails := [⟨"carol@example.edu", "work", true⟩], active := true,
    title := "PM", enterpriseData := ⟨"Prod"⟩ }

/-- Old mirror for C5: {A = alice, B = bob}, with B's fields exactly
what the remote snapshot derives (B unchanged). -/
def reconOldState : List (String × UserRecord) :=
  [("alice", aliceRec), ("bob", recordOfSCIMUser scimBob)]

/-- "created externally" events. -/
def isCreatedEvent : DriftEvent → Bool
  | DriftEvent.createdExternally _ => true
  | _ => false

/-- "deleted externally" events. -/
def isDeletedEvent : DriftEvent → Bool
  | DriftEvent.deletedExternally _ => true
  | _ => false

/-- "changed externally" events (status, title or structured name). -/
def isChangedEvent : DriftEvent → Bool
  | DriftEvent.statusChanged _ _ _ => true
  | DriftEvent.titleChanged _ _ _ => true
  | DriftEvent.nameChanged _ => true
  | _ => false

/-- C5: for old mirror {A,B} and remote snapshot {B,C} with B unchanged,
one reconciliation emits exactly one "created externally" event (for C)
and exactly one "deleted externally" event (for A), zero "changed"
events, and the mirror afterwards equals {B,C}; in general, whenever the
remote fetch succeeds, the saved mirror is exactly the fresh remote
snapshot. -/
theorem diff_completeness :
    reconcileUsersModel reconOldState (Except.ok [scimBob, scimCarol])
      = some ([DriftEvent.createdExternally "carol", DriftEvent.deletedExternally "alice"],
              [("bob", recordOfSCIMUser scimBob), ("carol", recordOfSCIMUser scimCarol)]) ∧
    ((userDeltaEvents reconOldState (newStateOfUsers [scimBob, scimCarol])).filter
        isCreatedEvent).length = 1 ∧
    ((userDeltaEvents reconOldState (newStateOfUsers [scimBob, scimCarol])).filter
        isDeletedEvent).length = 1 ∧
    ((userDeltaEvents reconOldState (newStateOfUsers [scimBob, scimCarol])).filter
        isChangedEvent).length = 0 ∧
    (∀ oldState scimUsers,
      reconcileUsersModel oldState (Except.ok scimUsers)
        = some (userDeltaEvents oldState (newStateOfUsers scimUsers),
                newStateOfUsers scimUsers)) :=
  ⟨by decide, by decide, by decide, by decide, fun _ _ => rfl⟩

/-- C6 counterexample: the users fetch fails while the groups fetch is
healthy, yet reconcileGroups never runs — refreshCmd exits on the users
error — contradicting "the failure does not abort the reconciliation of
the other entity kind". -/
theorem reconciler_failure_isolation_cex :
    (refreshModel [] [("legacy", { scimID := "g-old" })] (Except.error ())
        (Except.ok [{ id := "g-new", displayName := "new" }])).groupsReconcileRan = false ∧
    (refreshModel [] [("legacy", { scimID := "g-old" })] (Except.error ())
        (Except.ok [{ id := "g-new", displayName := "new" }])).exitedWithError = true ∧
    (refreshModel [] [("legacy", { scimID := "g-old" })] (Except.error ())
        (Except.ok [{ id := "g-new", displayName := "new" }])).groupsMirror
      = [("legacy", { scimID := "g-old" })] :=
  ⟨rfl, rfl, rfl⟩

/-- C6 (amended): when the remote fetch for an entity kind fails, the
mirror overwrite for that kind is skipped (no partial snapshot), but the
run ends there: a users-fetch failure terminates the run before groups
reconciliation happens at all, while a groups-fetch failure occurs only
after users reconciliation has already completed and been persisted. -/
theorem reconciler_failure_isolation (oldUsers : List (String × UserRecord))
    (oldGroups : List (String × GroupRecord))
    (usersFetch : Except Unit (List SCIMUser))
    (groupsFetch : Except Unit (List SCIMGroup)) :
    (usersFetch = Except.error () →
      refreshModel oldUsers oldGroups usersFetch groupsFetch
        = { usersMirror := oldUsers, groupsMirror := oldGroups, userEvents := [],
            groupEvents := [], groupsReconcileRan := false, exitedWithError := true }) ∧
    (∀ us, usersFetch = Except.ok us → groupsFetch = Except.error () →
      refreshModel oldUsers oldGroups usersFetch groupsFetch
        = { usersMirror := newStateOfUsers us, groupsMirror := oldGroups,
            userEvents := userDeltaEvents oldUsers (newStateOfUsers us),
            groupEvents := [], groupsReconcileRan := true, exitedWithError := true }) := by
  constructor
  · intro h
    subst h
    rfl
  · intro us h1 h2
    subst h1
    subst h2
    rfl

/-- Witness for C6 (amended) at both failure directions. -/
theorem reconciler_failure_isolation_witness :
    refreshModel [("alice", aliceRec)] [("legacy", { scimID := "g-old" })]
        (Except.error ()) (Except.ok [])
      = { usersMirror := [("alice", aliceRec)],
          groupsMirror := [("legacy", { scimID := "g-old" })],
          userEvents := [], groupEvents := [],
          groupsReconcileRan := false, exitedWithError := true } ∧
    refreshModel [("alice", aliceRec)] [("legacy", { scimID := "g-old" })]
        (Except.ok [scimBob]) (Except.error ())
      = { usersMirror := newStateOfUsers [scimBob],
          groupsMirror := [("legacy", { scimID := "g-old" })],
          userEvents := userDeltaEvents [("alice", aliceRec)] (newStateOfUsers [scimBob]),
          groupEvents := [], groupsReconcileRan := true, exitedWithError := true } :=
  ⟨(reconciler_failure_isolation [("alice", aliceRec)] [("legacy", { scimID := "g-old" })]
      (Except.error ()) (Except.ok [])).1 rfl,
   (reconciler_failure_isolation [("alice", aliceRec)] [("legacy", { scimID := "g-old" })]
      (Except.ok [scimBob]) (Except.error ())).2 [scimBob] rfl rfl⟩

/-- Remote user bob, deactivated (active = false). -/
def scimBobInactive : SCIMUser :=
  { id := "scim-bob", userName := "bob", name := ⟨"Bob B", "B", "Bob"⟩,
    emails := [⟨"bob@example.edu", "work", true⟩], active := false,
    title := "Dev", enterpriseData := ⟨"Eng"⟩ }

/-- The mirror record of bob after a processed deactivate task: status
"inactive" with the deactivation timestamp stamped. -/
def deactivatedBobRec : UserRecord :=
  { recordOfSCIMUser scimBobInactive with deactivationTimestamp := some 1000 }

/-- C9 (code-bug evidence): reconcileUsers rebuilds every mirror record
from the remote data with a nil DeactivationTimestamp, so one refresh
run silently clears the stamped timestamp of a deactivated user — no
drift event is even emitted, since status, title and name are unchanged —
contradicting the invariant that `deactivated_at` is never cleared. -/
theorem deactivation_timestamp_cleared_by_reconcile :
    deactivatedBobRec.deactivationTimestamp = some 1000 ∧
    deactivatedBobRec.status = "inactive" ∧
    reconcileUsersModel [("bob", deactivatedBobRec)] (Except.ok [scimBobInactive])
      = some ([], [("bob", recordOfSCIMUser scimBobInactive)]) ∧
    (recordOfSCIMUser scimBobInactive).deactivationTimestamp = none ∧
    (recordOfSCIMUser scimBobInactive).status = "inactive" :=
  ⟨rfl, rfl, by decide, rfl, rfl⟩

/-! ## Theorems about the cleanup command -/

theorem mem_of_mapLookup_eq_some {α : Type} {m : List (String × α)} {k : String} {v : α}
    (h : mapLookup m k = some v) : (k, v) ∈ m := by
  induction m with
  | nil => simp [mapLookup] at h
  | cons p rest ih =>
    rw [mapLookup] at h
    by_cases hp : p.1 = k
    · rw [if_pos hp] at h
      injection h with h
      have hpv : p = (k, v) := by
        cases p
        simp only [Prod.mk.injEq]
        exact ⟨hp, h⟩
      rw [hpv]
      exact List.mem_cons_self _ _
    · rw [if_neg hp] at h
      exact List.mem_cons_of_mem _ (ih h)

theorem mapLookup_eq_some_of_mem_nodup {α : Type} {m : List (String × α)} {k : String}
    {v : α} (hmem : (k, v) ∈ m) (hnd : (m.map Prod.fst).Nodup) : mapLookup m k = some v := by
  induction m with
  | nil => simp at hmem
  | cons p rest ih =>
    rw [List.map_cons, List.nodup_cons] at hnd
    rcases List.mem_cons.mp hmem with heq | hmem2
    · rw [← heq]
      simp [mapLookup]
    · have hk : p.1 ≠ k := by
        intro hkk
        apply hnd.1
        rw [hkk]
        exact List.mem_map.mpr ⟨(k, v), hmem2, rfl⟩
      rw [mapLookup, if_neg hk]
      exact ih hmem2 hnd.2

theorem cleanup_fold_store (deleteOk : String → Bool) :
    ∀ (cands : List (String × UserRecord)) (acc : CleanupResult),
      (cands.foldl (cleanupStep deleteOk) acc).store
        = cands.foldl
            (fun s kv => if deleteOk kv.2.scimID then mapErase s kv.1 else s) acc.store := by
  intro cands
  induction cands with
  | nil => intro acc; rfl
  | cons kv rest ih =>
    intro acc
    rw [List.foldl_cons, List.foldl_cons, ih]
    congr 1
    by_cases h : deleteOk kv.2.scimID <;> simp [cleanupStep, h]

theorem cleanup_fold_calls (deleteOk : String → Bool) :
    ∀ (cands : List (String × UserRecord)) (acc : CleanupResult),
      (cands.foldl (cleanupStep deleteOk) acc).calls
        = acc.calls ++ cands.map (fun kv => ApiCall.deleteUser kv.2.scimID) := by
  intro cands
  induction cands with
  | nil => intro acc; simp
  | cons kv rest ih =>
    intro acc
    rw [List.foldl_cons, ih]
    by_cases h : deleteOk kv.2.scimID <;> simp [cleanupStep, h]

theorem mapLookup_foldl_erase (deleteOk : String → Bool) (k : String) :
    ∀ (cands : List (String × UserRecord)) (s0 : List (String × UserRecord)),
      mapLookup
          (cands.foldl (fun s kv => if deleteOk kv.2.scimID then mapErase s kv.1 else s) s0) k
        = if cands.any (fun kv => deleteOk kv.2.scimID && kv.1 == k) then none
          else mapLookup s0 k := by
  intro cands
  induction cands with
  | nil => intro s0; simp
  | cons kv rest ih =>
    intro s0
    rw [List.foldl_cons, ih]
    by_cases hp : deleteOk kv.2.scimID
    · by_cases hk : kv.1 = k
      · by_cases ha : rest.any (fun kv2 => deleteOk kv2.2.scimID && kv2.1 == k) <;>
          simp [hp, hk, ha, mapLookup_mapErase]
      · have hk2 : ¬ k = kv.1 := fun h => hk h.symm
        by_cases ha : rest.any (fun kv2 => deleteOk kv2.2.scimID && kv2.1 == k) <;>
          simp [hp, hk, hk2, ha, mapLookup_mapErase]
    · by_cases ha : rest.any (fun kv2 => deleteOk kv2.2.scimID && kv2.1 == k) <;>
        simp [hp, ha]

/-- C10: a cleanup run removes a user record from the mirror only when
the remote DELETE for its external id succeeded; a failed DELETE leaves
the record unchanged in the mirror (to be retried on a later run) while
processing continues; every DELETE issued targets a candidate, and the
candidates are exactly the records whose deactivation timestamp is
non-nil and earlier than now minus the 7-day grace period. -/
theorem cleanup_removes_only_on_confirmed_delete
    (deleteOk : String → Bool) (now : Int) (store : List (String × UserRecord))
    (hnd : (store.map Prod.fst).Nodup) :
    (∀ k r, mapLookup store k = some r →
      (pastGracePeriod (cleanupCutoff now) r = true → deleteOk r.scimID = true →
        mapLookup (cleanupUsersModel deleteOk now store).store k = none) ∧
      (pastGracePeriod (cleanupCutoff now) r = true → deleteOk r.scimID = false →
        mapLookup (cleanupUsersModel deleteOk now store).store k = some r) ∧
      (pastGracePeriod (cleanupCutoff now) r = false →
        mapLookup (cleanupUsersModel deleteOk now store).store k = some r)) ∧
    (∀ c ∈ (cleanupUsersModel deleteOk now store).calls,
      ∃ k r, mapLookup store k = some r ∧ pastGracePeriod (cleanupCutoff now) r = true ∧
        c = ApiCall.deleteUser r.scimID) ∧
    (∀ r : UserRecord, pastGracePeriod (cleanupCutoff now) r = true →
      r.deactivationTimestamp ≠ none ∧
      ∀ ts, r.deactivationTimestamp = some ts → ts < now - 7 * 24 * 60 * 60) := by
  have hstore : (cleanupUsersModel deleteOk now store).store
      = (store.filter (fun kv => pastGracePeriod (cleanupCutoff now) kv.2)).foldl
          (fun s kv => if deleteOk kv.2.scimID then mapErase s kv.1 else s) store := by
    unfold cleanupUsersModel
    rw [cleanup_fold_store]
  have hcalls : (cleanupUsersModel deleteOk now store).calls
      = (store.filter (fun kv => pastGracePeriod (cleanupCutoff now) kv.2)).map
          (fun kv => ApiCall.deleteUser kv.2.scimID) := by
    unfold cleanupUsersModel
    rw [cleanup_fold_calls]
    simp
  refine ⟨?_, ?_, ?_⟩
  · intro k r hkr
    have hmem : (k, r) ∈ store := mem_of_mapLookup_eq_some hkr
    refine ⟨?_, ?_, ?_⟩
    · intro hpast hdel
      rw [hstore, mapLookup_foldl_erase]
      have hany : (store.filter (fun kv => pastGracePeriod (cleanupCutoff now) kv.2)).any
          (fun kv => deleteOk kv.2.scimID && kv.1 == k) = true := by
        refine List.any_eq_true.mpr ⟨(k, r), List.mem_filter.mpr ⟨hmem, hpast⟩, ?_⟩
        simp [hdel]
      rw [if_pos hany]
    · intro hpast hdel
      rw [hstore, mapLookup_foldl_erase]
      have hany : ¬ (store.filter (fun kv => pastGracePeriod (cleanupCutoff now) kv.2)).any
          (fun kv => deleteOk kv.2.scimID && kv.1 == k) = true := by
        intro hcon
        obtain ⟨kv, hkvmem, hkvp⟩ := List.any_eq_true.mp hcon
        obtain ⟨hkvstore, _⟩ := List.mem_filter.mp hkvmem
        have hk1 : kv.1 = k := by
          have := (Bool.and_eq_true _ _).mp hkvp
          exact beq_iff_eq.mp this.2
        have hkv2 : kv.2 = r := by
          have hmem2 : (k, kv.2) ∈ store := by
            have : kv = (k, kv.2) := by
              cases kv
              simp_all
            rw [← this]
            exact hkvstore
          have := mapLookup_eq_some_of_mem_nodup hmem2 hnd
          rw [hkr] at this
          injection this with h2
          exact h2.symm
        have hdeltrue : deleteOk kv.2.scimID = true :=
          ((Bool.and_eq_true _ _).mp hkvp).1
        rw [hkv2, hdel] at hdeltrue
        exact Bool.false_ne_true hdeltrue
      rw [if_neg hany]
      exact hkr
    · intro hpast
      rw [hstore, mapLookup_foldl_erase]
      have hany : ¬ (store.filter (fun kv => pastGracePeriod (cleanupCutoff now) kv.2)).any
          (fun kv => deleteOk kv.2.scimID && kv.1 == k) = true := by
        intro hcon
        obtain ⟨kv, hkvmem, hkvp⟩ := List.any_eq_true.mp hcon
        obtain ⟨hkvstore, hkvpast⟩ := List.mem_filter.mp hkvmem
        have hk1 : kv.1 = k := by
          have := (Bool.and_eq_true _ _).mp hkvp
          exact beq_iff_eq.mp this.2
        have hkv2 : kv.2 = r := by
          have hmem2 : (k, kv.2) ∈ store := by
            have : kv = (k, kv.2) := by
              cases kv
              simp_all
            rw [← this]
            exact hkvstore
          have := mapLookup_eq_some_of_mem_nodup hmem2 hnd
          rw [hkr] at this
          injection this with h2
          exact h2.symm
        rw [hkv2, hpast] at hkvpast
        exact Bool.false_ne_true hkvpast
      rw [if_neg hany]
      exact hkr
  · intro c hc
    rw [hcalls] at hc
    obtain ⟨kv, hkvmem, hkveq⟩ := List.mem_map.mp hc
    obtain ⟨hkvstore, hkvpast⟩ := List.mem_filter.mp hkvmem
    refine ⟨kv.1, kv.2, ?_, hkvpast, hkveq.symm⟩
    have : kv = (kv.1, kv.2) := rfl
    exact mapLookup_eq_some_of_mem_nodup (this ▸ hkvstore) hnd
  · intro r hpast
    unfold pastGracePeriod at hpast
    cases hts : r.deactivationTimestamp with
    | none => rw [hts] at hpast; simp at hpast
    | some ts =>
      rw [hts] at hpast
      have hlt : ts < cleanupCutoff now := of_decide_eq_true hpast
      constructor
      · simp [hts]
      · intro ts2 hts2
        injection hts2 with h2
        subst h2
        have : cleanupCutoff now = now - 7 * 24 * 60 * 60 := by
          unfold cleanupCutoff gracePeriodSeconds
          norm_num
        rw [this] at hlt
        exact hlt

/-- A deactivated user far past the grace period whose DELETE succeeds. -/
def wOld1 : UserRecord :=
  { scimID := "s1", email := "o1@x", status := "inactive", name := ⟨"", "", ""⟩,
    title := "", organization := "", deactivationTimestamp := some 0 }

/-- A deactivated user past the grace period whose DELETE fails. -/
def wOld2 : UserRecord :=
  { scimID := "s2", email := "o2@x", status := "inactive", name := ⟨"", "", ""⟩,
    title := "", organization := "", deactivationTimestamp := some 10 }

/-- A user never deactivated (no timestamp). -/
def wFresh : UserRecord :=
  { scimID := "s3", email := "f@x", status := "active", name := ⟨"", "", ""⟩,
    title := "", organization := "", deactivationTimestamp := none }

/-- Mirror for the C10 witness. -/
def wStore : List (String × UserRecord) :=
  [("old1", wOld1), ("old2", wOld2), ("fresh", wFresh)]

/-- DELETE succeeds for every external id except "s2". -/
def wDeleteOk : String → Bool := fun scimID => !(scimID == "s2")

/-- Witness for C10: the confirmed delete is removed, the failed delete
and the non-candidate are retained unchanged. -/
theorem cleanup_removes_only_on_confirmed_delete_witness :
    mapLookup (cleanupUsersModel wDeleteOk 604900 wStore).store "old1" = none ∧
    mapLookup (cleanupUsersModel wDeleteOk 604900 wStore).store "old2" = some wOld2 ∧
    mapLookup (cleanupUsersModel wDeleteOk 604900 wStore).store "fresh" = some wFresh := by
  have H := cleanup_removes_only_on_confirmed_delete wDeleteOk 604900 wStore (by decide)
  exact ⟨(H.1 "old1" wOld1 (by decide)).1 (by decide) (by decide),
         (H.1 "old2" wOld2 (by decide)).2.1 (by decide) (by decide),
         (H.1 "fresh" wFresh (by decide)).2.2 (by decide)⟩

end ScimMediator
